import Mathlib

/-!
Verification of the gate approval state machine of the `approval_defs`
module (chromium-dashboard).  The data model and operations are embedded
shallowly: vote rows and gate rows are structures, timestamps are natural
numbers, and the stateful vote-submission coordinator threads an explicit
datastore value.  External collaborators (SLO recorder, redis cache, HTTP
fetcher, JSON decoder, datastore-backed GateDef) are passed in as function
parameters.
-/

namespace ApprovalDefs

/- Modelled from the spec: the vote state enumeration lives in
`internals/review_models.py`, which is not part of the sources here.  The
spec fixes the set of states (`NO_RESPONSE`, `NEEDS_WORK`, `REVIEW_REQUESTED`,
`REVIEW_STARTED`, `INTERNAL_REVIEW`, `DENIED`, `APPROVED`, `NA`,
`NA_REQUESTED`, `NA_SELF`, `NA_VERIFIED`) and notes that only equality and
"most recent among a subset" comparisons are used, never raw ordinal
comparisons, so the concrete numerals below only need to be distinct. -/

/-- A persisted vote row.  Fields follow the `Vote` model as used by
`approval_defs.py`: a key (`vid`), `feature_id`, `gate_id`, denormalized
`gate_type`, a `state`, the `set_on` timestamp and the `set_by` identity. -/
structure Vote where
  vid : Nat
  feature_id : Nat
  gate_id : Option Nat
  gate_type : Option Nat
  state : Nat
  set_on : Nat
  set_by : String
deriving DecidableEq, Repr

namespace Vote

def NO_RESPONSE : Nat := 0
def NEEDS_WORK : Nat := 1
def REVIEW_REQUESTED : Nat := 2
def REVIEW_STARTED : Nat := 3
def INTERNAL_REVIEW : Nat := 4
def DENIED : Nat := 5
def APPROVED : Nat := 6
def NA : Nat := 7
def NA_REQUESTED : Nat := 8
def NA_SELF : Nat := 9
def NA_VERIFIED : Nat := 10

/-- Modelled from the spec: `Vote.VOTE_STATES`, the set of defined vote
states ("`newState` must be one of the defined vote states"). -/
def VOTE_STATES : List Nat :=
  [NO_RESPONSE, NEEDS_WORK, REVIEW_REQUESTED, REVIEW_STARTED,
   INTERNAL_REVIEW, DENIED, APPROVED, NA, NA_REQUESTED, NA_SELF, NA_VERIFIED]

/-- Modelled from the spec: `Vote.is_valid_state` of `review_models.py`
(not in the sources) checks membership in the defined vote states. -/
def is_valid_state (s : Nat) : Bool := VOTE_STATES.contains s

end Vote

/-- A persisted gate row: key (`gid`), `feature_id`, `gate_type`, the
aggregate `state` and the assignee list. -/
structure Gate where
  gid : Nat
  feature_id : Nat
  gate_type : Nat
  state : Nat
  assignee_emails : List String
deriving DecidableEq, Repr

namespace Gate

/-- Modelled from the spec: the gate states reuse the vote state
enumeration "plus a distinct `PREPARING` initial state". -/
def PREPARING : Nat := 100

end Gate

def ONE_LGTM : String := "One LGTM"
def THREE_LGTM : String := "Three LGTMs"
def IN_NDB : String := "stored in ndb"
def APPROVERS_CACHE_KEY : String := "approvers"
def CACHE_EXPIRATION : Nat := 60 * 60
def DEFAULT_SLO_LIMIT : Nat := 5
def DEFAULT_SLO_RESOLVE_LIMIT : Nat := 10

/-- The `approvers` field of a `GateInfo` is a Python union
`str | list[str]`: either a string (the `IN_NDB` sentinel or an OWNERS
file URL) or a hard-coded list of emails. -/
inductive ApproversField where
  | str (s : String)
  | list (l : List String)
deriving DecidableEq, Repr

structure GateInfo where
  name : String
  description : String
  gate_type : Nat
  rule : String
  approvers : ApproversField
  team_name : String
  escalation_email : Option String := none
  slo_initial_response : Nat := DEFAULT_SLO_LIMIT
  slo_resolve : Nat := DEFAULT_SLO_RESOLVE_LIMIT
deriving DecidableEq, Repr

/- Modelled from the spec: the gate-type constants come from
`internals/core_enums.py`, which is not part of the sources here; they are
only used as distinct registry keys, so any distinct numerals serve. -/
namespace core_enums

def GATE_API_PROTOTYPE : Nat := 1
def GATE_API_ORIGIN_TRIAL : Nat := 2
def GATE_API_EXTEND_ORIGIN_TRIAL : Nat := 3
def GATE_API_SHIP : Nat := 4
def GATE_API_PLAN : Nat := 5
def GATE_PRIVACY_ORIGIN_TRIAL : Nat := 6
def GATE_PRIVACY_SHIP : Nat := 7
def GATE_SECURITY_ORIGIN_TRIAL : Nat := 8
def GATE_SECURITY_SHIP : Nat := 9
def GATE_ENTERPRISE_SHIP : Nat := 10
def GATE_ENTERPRISE_PLAN : Nat := 11
def GATE_DEBUGGABILITY_ORIGIN_TRIAL : Nat := 12
def GATE_DEBUGGABILITY_SHIP : Nat := 13
def GATE_DEBUGGABILITY_PLAN : Nat := 14
def GATE_TESTING_SHIP : Nat := 15
def GATE_TESTING_PLAN : Nat := 16

end core_enums

def API_OWNERS_URL : String :=
  "https://chromium.googlesource.com/chromium/src/+/main/third_party/blink/API_OWNERS?format=TEXT"

def PRIVACY_APPROVERS : ApproversField := .str IN_NDB
def SECURITY_APPROVERS : ApproversField := .str IN_NDB
def ENTERPRISE_APPROVERS : ApproversField := .list
  ["mhoste@google.com", "angelaweber@google.com", "davidayad@google.com",
   "omole@google.com", "nsamarakkody@google.com", "pastarmovj@google.com",
   "aaudi@google.com", "kimreardon@google.com", "elmirakalali@google.com"]
def DEBUGGABILITY_APPROVERS : ApproversField := .str IN_NDB
def TESTING_APPROVERS : ApproversField := .list
  ["sadapala@google.com", "santhoshkumarm@google.com", "maguschen@google.com",
   "karala@google.com", "aichein@google.com"]

def PrototypeApproval : GateInfo :=
  { name := "Intent to Prototype"
    description := "Not normally used.  If a review is requested, API Owners can approve."
    gate_type := core_enums.GATE_API_PROTOTYPE, rule := ONE_LGTM
    approvers := .str API_OWNERS_URL, team_name := "API Owners" }

def ExperimentApproval : GateInfo :=
  { name := "Intent to Experiment"
    description := "One API Owner must approve your intent"
    gate_type := core_enums.GATE_API_ORIGIN_TRIAL, rule := ONE_LGTM
    approvers := .str API_OWNERS_URL, team_name := "API Owners" }

def ExtendExperimentApproval : GateInfo :=
  { name := "Intent to Extend Experiment"
    description := "One API Owner must approve your intent"
    gate_type := core_enums.GATE_API_EXTEND_ORIGIN_TRIAL, rule := ONE_LGTM
    approvers := .str API_OWNERS_URL, team_name := "API Owners" }

def ShipApproval : GateInfo :=
  { name := "Intent to Ship"
    description := "Three API Owners must approve your intent"
    gate_type := core_enums.GATE_API_SHIP, rule := THREE_LGTM
    approvers := .str API_OWNERS_URL, team_name := "API Owners" }

def PlanApproval : GateInfo :=
  { name := "Intent to Deprecate and Remove"
    description := "Three API Owners must approve your intent"
    gate_type := core_enums.GATE_API_PLAN, rule := THREE_LGTM
    approvers := .str API_OWNERS_URL, team_name := "API Owners" }

def PrivacyOriginTrialApproval : GateInfo :=
  { name := "Privacy OT Review", description := "Privacy OT Review"
    gate_type := core_enums.GATE_PRIVACY_ORIGIN_TRIAL, rule := ONE_LGTM
    approvers := PRIVACY_APPROVERS, team_name := "Privacy"
    escalation_email := some "chrome-privacy-owp-rotation@google.com"
    slo_initial_response := 6 }

def PrivacyShipApproval : GateInfo :=
  { name := "Privacy Ship Review", description := "Privacy Ship Review"
    gate_type := core_enums.GATE_PRIVACY_SHIP, rule := ONE_LGTM
    approvers := PRIVACY_APPROVERS, team_name := "Privacy"
    escalation_email := some "chrome-privacy-owp-rotation@google.com"
    slo_initial_response := 6 }

def SecurityOriginTrialApproval : GateInfo :=
  { name := "Security OT Review", description := "Security OT Review"
    gate_type := core_enums.GATE_SECURITY_ORIGIN_TRIAL, rule := ONE_LGTM
    approvers := SECURITY_APPROVERS, team_name := "WP Security"
    slo_initial_response := 6 }

def SecurityShipApproval : GateInfo :=
  { name := "Security Ship Review", description := "Security Ship Review"
    gate_type := core_enums.GATE_SECURITY_SHIP, rule := ONE_LGTM
    approvers := SECURITY_APPROVERS, team_name := "WP Security"
    slo_initial_response := 6 }

def EnterpriseShipApproval : GateInfo :=
  { name := "Enterprise Ship Review", description := "Enterprise Ship Review"
    gate_type := core_enums.GATE_ENTERPRISE_SHIP, rule := ONE_LGTM
    approvers := ENTERPRISE_APPROVERS, team_name := "Enterprise" }

def EnterprisePlanApproval : GateInfo :=
  { name := "Enterprise Deprecation Plan Review"
    description := "Enterprise Deprecation Plan Review"
    gate_type := core_enums.GATE_ENTERPRISE_PLAN, rule := ONE_LGTM
    approvers := ENTERPRISE_APPROVERS, team_name := "Enterprise" }

def DebuggabilityOriginTrialApproval : GateInfo :=
  { name := "Debuggability OT Review", description := "Debuggability OT Review"
    gate_type := core_enums.GATE_DEBUGGABILITY_ORIGIN_TRIAL, rule := ONE_LGTM
    approvers := DEBUGGABILITY_APPROVERS, team_name := "Debuggability"
    escalation_email := some "devtools-dev@chromium.org" }

def DebuggabilityShipApproval : GateInfo :=
  { name := "Debuggability Ship Review", description := "Debuggability Ship Review"
    gate_type := core_enums.GATE_DEBUGGABILITY_SHIP, rule := ONE_LGTM
    approvers := DEBUGGABILITY_APPROVERS, team_name := "Debuggability"
    escalation_email := some "devtools-dev@chromium.org" }

def DebuggabilityPlanApproval : GateInfo :=
  { name := "Debuggability Deprecation Plan Review"
    description := "Debuggability Deprecation Plan Review"
    gate_type := core_enums.GATE_DEBUGGABILITY_PLAN, rule := ONE_LGTM
    approvers := DEBUGGABILITY_APPROVERS, team_name := "Debuggability"
    escalation_email := some "devtools-dev@chromium.org" }

def TestingShipApproval : GateInfo :=
  { name := "Testing Ship Review", description := "Testing Ship Review"
    gate_type := core_enums.GATE_TESTING_SHIP, rule := ONE_LGTM
    approvers := TESTING_APPROVERS, team_name := "Testing" }

def TestingPlanApproval : GateInfo :=
  { name := "Testing Deprecation Plan Review"
    description := "Testing Deprecation Plan Review"
    gate_type := core_enums.GATE_TESTING_PLAN, rule := ONE_LGTM
    approvers := TESTING_APPROVERS, team_name := "Testing" }

def APPROVAL_FIELDS_LIST : List GateInfo :=
  [PrototypeApproval, ExperimentApproval, ExtendExperimentApproval,
   ShipApproval, PlanApproval,
   PrivacyOriginTrialApproval, PrivacyShipApproval,
   SecurityOriginTrialApproval, SecurityShipApproval,
   EnterpriseShipApproval, EnterprisePlanApproval,
   DebuggabilityOriginTrialApproval, DebuggabilityShipApproval,
   DebuggabilityPlanApproval,
   TestingShipApproval, TestingPlanApproval]

/-- The dict `APPROVAL_FIELDS_BY_ID`, keyed by `gate_type`, as a lookup. -/
def APPROVAL_FIELDS_BY_ID (gate_type : Nat) : Option GateInfo :=
  APPROVAL_FIELDS_LIST.find? (fun afd => afd.gate_type == gate_type)

/-! ### The vote aggregator `_calc_gate_state` -/

/-- The initial filter of `_calc_gate_state`:
`votes = [v for v in votes if v.state != Vote.NO_RESPONSE]`. -/
def filterResponses (votes : List Vote) : List Vote :=
  votes.filter (fun v => v.state != Vote.NO_RESPONSE)

/-- `counts[s]` of `collections.Counter(v.state for v in votes)`. -/
def countState (votes : List Vote) (s : Nat) : Nat :=
  (votes.filter (fun v => v.state == s)).length

/-- The states scanned for in the most-recent-vote loop of
`_calc_gate_state`, in source order. -/
def RESET_STATES : List Nat :=
  [Vote.NEEDS_WORK, Vote.REVIEW_STARTED, Vote.REVIEW_REQUESTED,
   Vote.DENIED, Vote.INTERNAL_REVIEW, Vote.NA_REQUESTED]

/-- Stable insertion into a list sorted by descending `set_on`; an element
is placed before the first strictly-smaller key, after equal keys already
present later in the original list order. -/
def insertDesc (v : Vote) : List Vote → List Vote
  | [] => [v]
  | w :: ws => if w.set_on ≤ v.set_on then v :: w :: ws else w :: insertDesc v ws

/-- `sorted(votes, reverse=True, key=lambda v: v.set_on)`: Python's sort is
stable, and a stable descending sort is uniquely determined, so this stable
insertion sort computes the same list. -/
def sortDesc : List Vote → List Vote
  | [] => []
  | v :: vs => insertDesc v (sortDesc vs)

/-- The loop
`for vote in sorted(votes, reverse=True, key=lambda v: v.set_on): if vote.state in (...): return vote.state`
as the first matching state, if any. -/
def firstResetState (votes : List Vote) : Option Nat :=
  ((sortDesc votes).find? (fun v => decide (v.state ∈ RESET_STATES))).map
    (fun v => v.state)

/-- `_calc_gate_state(votes, rule)`.  The Python `if` chain falls through
from the NA_SELF block when neither of its two returns fires; that shared
continuation is the local `rest`. -/
def calc_gate_state (votes0 : List Vote) (rule : String) : Nat :=
  let votes := filterResponses votes0
  let num_lgtms := countState votes Vote.APPROVED + countState votes Vote.NA
  let rest :=
    if (rule = ONE_LGTM ∧ num_lgtms ≥ 1) ∨ (rule = THREE_LGTM ∧ num_lgtms ≥ 3) then
      if countState votes Vote.NA > 0 then Vote.NA else Vote.APPROVED
    else
      match firstResetState votes with
      | some s => s
      | none =>
        if rule = THREE_LGTM ∧ num_lgtms ≥ 1 then Vote.REVIEW_REQUESTED
        else Gate.PREPARING
  if countState votes Vote.NA_SELF = 1 ∧ rule = ONE_LGTM then
    if votes.length = 1 then Vote.NA_SELF
    else if countState votes Vote.NA_VERIFIED ≥ 1 then Vote.NA_VERIFIED
    else rest
  else rest

/-- Helper for building votes in concrete scenarios: only `state` and
`set_on` matter to the aggregator. -/
def mkV (s t : Nat) : Vote :=
  { vid := 0, feature_id := 0, gate_id := none, gate_type := none,
    state := s, set_on := t, set_by := "" }

/-! ### Sorting lemmas for the most-recent-vote scan -/

theorem mem_insertDesc {x v : Vote} {l : List Vote} :
    x ∈ insertDesc v l ↔ x = v ∨ x ∈ l := by
  induction l with
  | nil => simp [insertDesc]
  | cons w ws ih =>
    simp only [insertDesc]
    split
    · simp [List.mem_cons]
    · simp only [List.mem_cons, ih]
      tauto

theorem pairwise_insertDesc {v : Vote} {l : List Vote}
    (h : l.Pairwise (fun a b => b.set_on ≤ a.set_on)) :
    (insertDesc v l).Pairwise (fun a b => b.set_on ≤ a.set_on) := by
  induction l with
  | nil => simp [insertDesc]
  | cons w ws ih =>
    rcases List.pairwise_cons.mp h with ⟨hw, hws⟩
    simp only [insertDesc]
    split
    · rename_i hle
      refine List.pairwise_cons.mpr ⟨?_, h⟩
      intro x hx
      rcases List.mem_cons.mp hx with rfl | hx
      · exact hle
      · exact le_trans (hw x hx) hle
    · rename_i hgt
      push_neg at hgt
      refine List.pairwise_cons.mpr ⟨?_, ih hws⟩
      intro x hx
      rcases mem_insertDesc.mp hx with rfl | hx
      · exact le_of_lt hgt
      · exact hw x hx

theorem mem_sortDesc {x : Vote} {l : List Vote} : x ∈ sortDesc l ↔ x ∈ l := by
  induction l with
  | nil => simp [sortDesc]
  | cons v vs ih =>
    simp only [sortDesc, mem_insertDesc, ih, List.mem_cons]

theorem pairwise_sortDesc (l : List Vote) :
    (sortDesc l).Pairwise (fun a b => b.set_on ≤ a.set_on) := by
  induction l with
  | nil => simp [sortDesc]
  | cons v vs ih => exact pairwise_insertDesc ih

/-- In a list sorted by descending timestamp, if `v` satisfies `p` and every
other `p`-satisfying element has a strictly smaller timestamp, then the first
`p`-satisfying element found has the same state as `v`. -/
theorem find_of_strict_max (p : Vote → Bool) (l : List Vote)
    (hpair : l.Pairwise (fun a b => b.set_on ≤ a.set_on)) (v : Vote)
    (hv : v ∈ l) (hpv : p v = true)
    (hmax : ∀ w ∈ l, p w = true → w ≠ v → w.set_on < v.set_on) :
    ∃ u, l.find? p = some u ∧ u.state = v.state := by
  induction l with
  | nil => exact absurd hv (List.not_mem_nil v)
  | cons u rest ih =>
    rcases List.pairwise_cons.mp hpair with ⟨hu, hrest⟩
    by_cases hp : p u = true
    · refine ⟨u, List.find?_cons_of_pos _ hp, ?_⟩
      by_cases huv : u = v
      · rw [huv]
      · have hlt : u.set_on < v.set_on :=
          hmax u (List.mem_cons_self u rest) hp huv
        have hvrest : v ∈ rest := by
          rcases List.mem_cons.mp hv with h | h
          · exact absurd h.symm huv
          · exact h
        have hle : v.set_on ≤ u.set_on := hu v hvrest
        omega
    · have hne : v ≠ u := fun h => hp (h ▸ hpv)
      have hvrest : v ∈ rest := by
        rcases List.mem_cons.mp hv with h | h
        · exact absurd h hne
        · exact h
      rw [List.find?_cons_of_neg _ hp]
      exact ih hrest hvrest
        (fun w hw hpw hne2 => hmax w (List.mem_cons_of_mem _ hw) hpw hne2)

theorem firstResetState_eq_some_of_strict_max {votes : List Vote} {v : Vote}
    (hv : v ∈ votes) (hres : v.state ∈ RESET_STATES)
    (hmax : ∀ w ∈ votes, w.state ∈ RESET_STATES → w ≠ v → w.set_on < v.set_on) :
    firstResetState votes = some v.state := by
  obtain ⟨u, hfind, hstate⟩ :=
    find_of_strict_max (fun w => decide (w.state ∈ RESET_STATES))
      (sortDesc votes) (pairwise_sortDesc votes) v (mem_sortDesc.mpr hv)
      (by simpa using hres)
      (fun w hw hpw hne => hmax w (mem_sortDesc.mp hw) (by simpa using hpw) hne)
  unfold firstResetState
  rw [hfind]
  simp [hstate]

theorem firstResetState_eq_none {votes : List Vote}
    (h : ∀ w ∈ votes, w.state ∉ RESET_STATES) : firstResetState votes = none := by
  have hfind : (sortDesc votes).find? (fun v => decide (v.state ∈ RESET_STATES)) = none :=
    List.find?_eq_none.mpr (fun a ha => by simpa using h a (mem_sortDesc.mp ha))
  unfold firstResetState
  rw [hfind]
  rfl

/-- The filter discarding `NO_RESPONSE` is idempotent. -/
theorem filterResponses_idem (votes : List Vote) :
    filterResponses (filterResponses votes) = filterResponses votes := by
  induction votes with
  | nil => rfl
  | cons v vs ih =>
    by_cases h : v.state = Vote.NO_RESPONSE <;>
      simp [filterResponses, List.filter_cons, h] at ih ⊢

/-! ### Claim theorems about the vote aggregator -/

/-- C1: for every vote list and rule, after discarding `NO_RESPONSE` votes
and when the `NA_SELF` special case does not apply, if the count of votes in
state `APPROVED` or `NA` satisfies the rule quorum (≥ 1 for `ONE_LGTM`,
≥ 3 for `THREE_LGTM`), then `_calc_gate_state` returns `NA` if at least one
counted vote is `NA`, and `APPROVED` otherwise — regardless of the
timestamps of any other votes. -/
theorem c1_quorum_na_poisoning (votes : List Vote) (rule : String)
    (hspecial : ¬(countState (filterResponses votes) Vote.NA_SELF = 1 ∧
      rule = ONE_LGTM ∧
      ((filterResponses votes).length = 1 ∨
        countState (filterResponses votes) Vote.NA_VERIFIED ≥ 1)))
    (hquorum : (rule = ONE_LGTM ∧
        countState (filterResponses votes) Vote.APPROVED +
          countState (filterResponses votes) Vote.NA ≥ 1) ∨
      (rule = THREE_LGTM ∧
        countState (filterResponses votes) Vote.APPROVED +
          countState (filterResponses votes) Vote.NA ≥ 3)) :
    calc_gate_state votes rule =
      if countState (filterResponses votes) Vote.NA > 0 then Vote.NA
      else Vote.APPROVED := by
  simp only [calc_gate_state]
  by_cases h1 : countState (filterResponses votes) Vote.NA_SELF = 1 ∧ rule = ONE_LGTM
  · have hlen : ¬(filterResponses votes).length = 1 :=
      fun h => hspecial ⟨h1.1, h1.2, Or.inl h⟩
    have hnav : ¬countState (filterResponses votes) Vote.NA_VERIFIED ≥ 1 :=
      fun h => hspecial ⟨h1.1, h1.2, Or.inr h⟩
    rw [if_pos h1, if_neg hlen, if_neg hnav, if_pos hquorum]
  · rw [if_neg h1, if_pos hquorum]

theorem c1_quorum_na_poisoning_witness :
    calc_gate_state [mkV Vote.NA 1, mkV Vote.APPROVED 2] ONE_LGTM = Vote.NA := by
  rw [c1_quorum_na_poisoning [mkV Vote.NA 1, mkV Vote.APPROVED 2] ONE_LGTM
    (by decide) (by decide)]
  decide

/-- C5: under the `ONE_LGTM` rule, if after discarding `NO_RESPONSE` votes
exactly one vote exists and it is `NA_SELF`, `_calc_gate_state` returns
`NA_SELF`; if exactly one `NA_SELF` vote exists together with additional
votes of which at least one is `NA_VERIFIED`, it returns `NA_VERIFIED`;
both outcomes take priority over the general quorum computation. -/
theorem c5_na_self_paths :
    (∀ (votes : List Vote) (v : Vote), filterResponses votes = [v] →
       v.state = Vote.NA_SELF →
       calc_gate_state votes ONE_LGTM = Vote.NA_SELF) ∧
    (∀ votes : List Vote, countState (filterResponses votes) Vote.NA_SELF = 1 →
       (filterResponses votes).length ≥ 2 →
       countState (filterResponses votes) Vote.NA_VERIFIED ≥ 1 →
       calc_gate_state votes ONE_LGTM = Vote.NA_VERIFIED) := by
  constructor
  · intro votes v hfil hstate
    have hc : countState [v] Vote.NA_SELF = 1 := by
      simp [countState, List.filter_cons, hstate]
    simp only [calc_gate_state]
    rw [hfil]
    simp [hc]
  · intro votes hc hlen hnav
    have hlen1 : ¬(filterResponses votes).length = 1 := by omega
    simp only [calc_gate_state]
    rw [if_pos (show countState (filterResponses votes) Vote.NA_SELF = 1 ∧ True from
        ⟨hc, trivial⟩),
      if_neg hlen1, if_pos hnav]

theorem c5_na_self_paths_witness :
    calc_gate_state [mkV Vote.NA_SELF 1] ONE_LGTM = Vote.NA_SELF ∧
    calc_gate_state [mkV Vote.NA_SELF 1, mkV Vote.NA_VERIFIED 2] ONE_LGTM =
      Vote.NA_VERIFIED :=
  ⟨c5_na_self_paths.1 [mkV Vote.NA_SELF 1] (mkV Vote.NA_SELF 1)
     (by decide) (by decide),
   c5_na_self_paths.2 [mkV Vote.NA_SELF 1, mkV Vote.NA_VERIFIED 2]
     (by decide) (by decide) (by decide)⟩

/-- C7: for every vote list in which neither the `NA_SELF` special case nor
the quorum threshold is met, if at least one vote (after discarding
`NO_RESPONSE`) is in the re-request set {`NEEDS_WORK`, `REVIEW_STARTED`,
`REVIEW_REQUESTED`, `DENIED`, `INTERNAL_REVIEW`, `NA_REQUESTED`},
`_calc_gate_state` returns the state of the vote in that set with the
strictly most recent `set_on` timestamp. -/
theorem c7_most_recent_reset_wins (votes : List Vote) (rule : String) (v : Vote)
    (hspecial : ¬(countState (filterResponses votes) Vote.NA_SELF = 1 ∧
      rule = ONE_LGTM ∧
      ((filterResponses votes).length = 1 ∨
        countState (filterResponses votes) Vote.NA_VERIFIED ≥ 1)))
    (hquorum : ¬((rule = ONE_LGTM ∧
        countState (filterResponses votes) Vote.APPROVED +
          countState (filterResponses votes) Vote.NA ≥ 1) ∨
      (rule = THREE_LGTM ∧
        countState (filterResponses votes) Vote.APPROVED +
          countState (filterResponses votes) Vote.NA ≥ 3)))
    (hv : v ∈ filterResponses votes) (hres : v.state ∈ RESET_STATES)
    (hmax : ∀ w ∈ filterResponses votes,
      w.state ∈ RESET_STATES → w ≠ v → w.set_on < v.set_on) :
    calc_gate_state votes rule = v.state := by
  have hfind := firstResetState_eq_some_of_strict_max hv hres hmax
  simp only [calc_gate_state]
  by_cases h1 : countState (filterResponses votes) Vote.NA_SELF = 1 ∧ rule = ONE_LGTM
  · have hlen : ¬(filterResponses votes).length = 1 :=
      fun h => hspecial ⟨h1.1, h1.2, Or.inl h⟩
    have hnav : ¬countState (filterResponses votes) Vote.NA_VERIFIED ≥ 1 :=
      fun h => hspecial ⟨h1.1, h1.2, Or.inr h⟩
    rw [if_pos h1, if_neg hlen, if_neg hnav, if_neg hquorum]
    simp only [hfind]
  · rw [if_neg h1, if_neg hquorum]
    simp only [hfind]

theorem c7_most_recent_reset_wins_witness :
    calc_gate_state [mkV Vote.DENIED 1, mkV Vote.REVIEW_REQUESTED 2] ONE_LGTM =
      Vote.REVIEW_REQUESTED :=
  c7_most_recent_reset_wins
    [mkV Vote.DENIED 1, mkV Vote.REVIEW_REQUESTED 2] ONE_LGTM
    (mkV Vote.REVIEW_REQUESTED 2)
    (by decide) (by decide) (by decide) (by decide) (by decide)

/-- C8: under the `THREE_LGTM` rule, for every vote list with
`1 ≤ lgtmCount < 3` and no vote in the re-request set, `_calc_gate_state`
returns `REVIEW_REQUESTED`; when no branch matches at all (in particular on
an empty vote list, for any rule) it returns `PREPARING`; votes
[`APPROVED`, `APPROVED`] yield `REVIEW_REQUESTED` and a third `APPROVED`
yields `APPROVED`. -/
theorem c8_three_lgtm_progress_and_preparing :
    (∀ votes : List Vote,
       1 ≤ countState (filterResponses votes) Vote.APPROVED +
         countState (filterResponses votes) Vote.NA →
       countState (filterResponses votes) Vote.APPROVED +
         countState (filterResponses votes) Vote.NA < 3 →
       (∀ w ∈ filterResponses votes, w.state ∉ RESET_STATES) →
       calc_gate_state votes THREE_LGTM = Vote.REVIEW_REQUESTED) ∧
    (∀ votes : List Vote,
       countState (filterResponses votes) Vote.APPROVED +
         countState (filterResponses votes) Vote.NA = 0 →
       (∀ w ∈ filterResponses votes, w.state ∉ RESET_STATES) →
       calc_gate_state votes THREE_LGTM = Gate.PREPARING) ∧
    (∀ rule : String, calc_gate_state [] rule = Gate.PREPARING) ∧
    calc_gate_state [mkV Vote.APPROVED 1, mkV Vote.APPROVED 2] THREE_LGTM =
      Vote.REVIEW_REQUESTED ∧
    calc_gate_state
      [mkV Vote.APPROVED 1, mkV Vote.APPROVED 2, mkV Vote.APPROVED 3]
      THREE_LGTM = Vote.APPROVED := by
  refine ⟨?_, ?_, ?_, by decide, by decide⟩
  · intro votes h1le h3gt hreset
    have hfind := firstResetState_eq_none hreset
    simp only [calc_gate_state, hfind]
    have hns : ¬(countState (filterResponses votes) Vote.NA_SELF = 1 ∧
        THREE_LGTM = ONE_LGTM) := by
      rintro ⟨-, h⟩
      exact absurd h (by decide)
    have hq : ¬((THREE_LGTM = ONE_LGTM ∧
        countState (filterResponses votes) Vote.APPROVED +
          countState (filterResponses votes) Vote.NA ≥ 1) ∨
      (True ∧
        countState (filterResponses votes) Vote.APPROVED +
          countState (filterResponses votes) Vote.NA ≥ 3)) := by
      rintro (⟨h, -⟩ | ⟨-, h⟩)
      · exact absurd h (by decide)
      · omega
    rw [if_neg hns, if_neg hq, if_pos ⟨trivial, h1le⟩]
  · intro votes h0 hreset
    have hfind := firstResetState_eq_none hreset
    simp only [calc_gate_state, hfind]
    have hns : ¬(countState (filterResponses votes) Vote.NA_SELF = 1 ∧
        THREE_LGTM = ONE_LGTM) := by
      rintro ⟨-, h⟩
      exact absurd h (by decide)
    have hq : ¬((THREE_LGTM = ONE_LGTM ∧
        countState (filterResponses votes) Vote.APPROVED +
          countState (filterResponses votes) Vote.NA ≥ 1) ∨
      (True ∧
        countState (filterResponses votes) Vote.APPROVED +
          countState (filterResponses votes) Vote.NA ≥ 3)) := by
      rintro (⟨h, -⟩ | ⟨-, h⟩)
      · exact absurd h (by decide)
      · omega
    rw [if_neg hns, if_neg hq, if_neg (by rintro ⟨-, h⟩; omega)]
  · intro rule
    simp [calc_gate_state, filterResponses, countState, firstResetState, sortDesc]

theorem c8_three_lgtm_progress_and_preparing_witness :
    calc_gate_state [mkV Vote.APPROVED 1, mkV Vote.APPROVED 2] THREE_LGTM =
      Vote.REVIEW_REQUESTED ∧
    calc_gate_state [mkV Vote.NO_RESPONSE 1] THREE_LGTM = Gate.PREPARING ∧
    calc_gate_state [] ONE_LGTM = Gate.PREPARING :=
  ⟨c8_three_lgtm_progress_and_preparing.1
     [mkV Vote.APPROVED 1, mkV Vote.APPROVED 2] (by decide) (by decide)
     (by decide),
   c8_three_lgtm_progress_and_preparing.2.1 [mkV Vote.NO_RESPONSE 1]
     (by decide) (by decide),
   c8_three_lgtm_progress_and_preparing.2.2.1 ONE_LGTM⟩

/-- C9: for every vote list and every rule, `_calc_gate_state` applied to
the list with all `NO_RESPONSE` votes removed equals `_calc_gate_state`
applied to the original list: `NO_RESPONSE` votes never influence the
computed gate state. -/
theorem c9_no_response_never_influences (votes : List Vote) (rule : String) :
    calc_gate_state (filterResponses votes) rule = calc_gate_state votes rule := by
  simp only [calc_gate_state, filterResponses_idem]

/-! ### The vote submission coordinator `set_vote`

The persistent store is threaded explicitly.  Queries are filters over the
vote/gate tables; `put` on an entity that already has a key replaces the row
with that key, and `put` on a fresh entity appends a row with a caller-chosen
fresh key (`new_id`).  Concurrent writes by other request handlers that
commit between this call's first query and its re-load of the gate's votes
are modelled by the `concurrent` row list, which becomes visible exactly at
the re-load.  The external SLO recorder (`internals/slo.py`, an external
collaborator per the spec) is a function parameter: it may mutate
SLO-tracking fields of the gate in RAM and reports whether it changed
anything. -/

structure Datastore where
  gates : List Gate
  votes : List Vote
deriving DecidableEq, Repr

/-- `Gate.query(Gate.feature_id == feature_id, Gate.gate_type == gate_type).fetch()`
followed by taking the first gate, i.e. `get_gate_by_type`. -/
def get_gate_by_type (ds : Datastore) (feature_id gate_type : Nat) : Option Gate :=
  match ds.gates.filter
      (fun g => g.feature_id == feature_id && g.gate_type == gate_type) with
  | [] => none
  | g :: _ => some g

/-- `Gate.get_by_id(gate_id)`; looking up a `None` id finds nothing. -/
def gate_get_by_id (ds : Datastore) (gate_id : Option Nat) : Option Gate :=
  match gate_id with
  | none => none
  | some gid => ds.gates.find? (fun g => g.gid == gid)

/-- `Vote.get_votes(feature_id=..., gate_id=..., set_by=...)`. -/
def get_votes_by (ds : Datastore) (feature_id : Nat) (gate_id : Option Nat)
    (set_by : String) : List Vote :=
  ds.votes.filter
    (fun v => v.feature_id == feature_id && v.gate_id == gate_id &&
      v.set_by == set_by)

/-- `Vote.get_votes(gate_id=...)`: the re-load of all votes on a gate. -/
def get_votes_of_gate (ds : Datastore) (gate_id : Nat) : List Vote :=
  ds.votes.filter (fun v => v.gate_id == some gate_id)

/-- `update_gate_approval_state(gate, votes)`: recompute the state in RAM
and report whether it changed.  A gate type absent from the registry is
treated as `ONE_LGTM`. -/
def update_gate_approval_state (gate : Gate) (votes : List Vote) :
    Gate × Bool :=
  let rule := match APPROVAL_FIELDS_BY_ID gate.gate_type with
    | some afd => afd.rule
    | none => ONE_LGTM
  let new_state := calc_gate_state votes rule
  if new_state == gate.state then (gate, false)
  else ({gate with state := new_state}, true)

/-- Outcome of a `set_vote` call: the `ValueError('Invalid approval state')`
raise, or a normal return of `new state | None`. -/
inductive SetVoteOutcome where
  | raised
  | returned (state : Option Nat)
deriving DecidableEq, Repr

/-- The gate-resolution prologue of `set_vote`: `none` means the
feature+gate-type lookup found no gate and the call returned `None`
immediately (after a logged warning); otherwise it yields the resolved gate
entity (possibly absent for an explicit id that matches nothing — the code
does not abort in that case) together with the updated `gate_id` and
`gate_type` locals. -/
def resolve_gate (ds : Datastore) (feature_id : Nat)
    (gate_type gate_id : Option Nat) :
    Option (Option Gate × Option Nat × Option Nat) :=
  match gate_id, gate_type with
  | none, some gt =>
    match get_gate_by_type ds feature_id gt with
    | none => none
    | some g => some (some g, some g.gid, some g.gate_type)
  | gid, _ => some (gate_get_by_id ds gid, gid, gate_type)

/-- `set_vote(feature_id, gate_type, new_state, set_by_email, gate_id)`.
`now` is the timestamp `datetime.datetime.now()` observed by this call,
`new_id` the datastore key allocated if a new `Vote` entity is written, and
`concurrent` the rows committed by racing handlers that become visible at
the re-load.  Returns the datastore as left behind by the call (also when
it raises) together with the outcome. -/
def set_vote (ds : Datastore)
    (slo_record : Gate → List Vote → Nat → Gate × Bool)
    (now new_id : Nat) (concurrent : List Vote)
    (feature_id : Nat) (gate_type : Option Nat) (new_state : Nat)
    (set_by_email : String) (gate_id : Option Nat := none) :
    Datastore × SetVoteOutcome :=
  match resolve_gate ds feature_id gate_type gate_id with
  | none => (ds, .returned none)
  | some (gate, gate_id, gate_type) =>
    if ¬ Vote.is_valid_state new_state then (ds, .raised)
    else
      let existing_list := get_votes_by ds feature_id gate_id set_by_email
      let write : Datastore × Option Vote :=
        match existing_list with
        | existing :: _ =>
          ({ds with votes := ds.votes.map (fun v =>
             if v.vid == existing.vid then
               {v with set_on := now, state := new_state} else v)},
           none)
        | [] =>
          let nv : Vote :=
            { vid := new_id, feature_id := feature_id, gate_id := gate_id,
              gate_type := gate_type, state := new_state, set_on := now,
              set_by := set_by_email }
          ({ds with votes := ds.votes ++ [nv]}, some nv)
      let ds2 : Datastore := {write.1 with votes := write.1.votes ++ concurrent}
      match gate with
      | none => (ds2, .returned none)
      | some gate =>
        let votes := get_votes_of_gate ds2 gate.gid
        let double_votes := votes.filter
          (fun v => v.set_by == set_by_email && v.set_on < now)
        if write.2.isSome ∧ double_votes ≠ [] then
          ({ds2 with votes :=
             ds2.votes.filter (fun v => v.vid != new_id)}, .returned none)
        else
          let old_gate_state := gate.state
          let upd := update_gate_approval_state gate votes
          let slo := slo_record upd.1 votes old_gate_state
          if upd.2 || slo.2 then
            ({ds2 with gates :=
               ds2.gates.map (fun g => if g.gid == gate.gid then slo.1 else g)},
             .returned (some slo.1.state))
          else (ds2, .returned none)

/-- A trivial SLO recorder for concrete scenarios: changes nothing. -/
def sloNop : Gate → List Vote → Nat → Gate × Bool := fun g _ _ => (g, false)

/-! ### Claim theorems about `set_vote` -/

/-- C2: in `set_vote`, when the call created a new `Vote` row and, after
reloading all votes for the gate, there exists another row by the same voter
with a `set_on` timestamp strictly earlier than this call's observed `now`,
the newly created row is deleted and the call returns no-change (`None`)
without recomputing or persisting gate state: the store is left exactly as
it was, plus the concurrent rows, with the created row gone. -/
theorem c2_lost_race_self_eviction
    (ds : Datastore) (slo_record : Gate → List Vote → Nat → Gate × Bool)
    (now new_id : Nat) (concurrent : List Vote)
    (feature_id : Nat) (gate_type : Option Nat) (new_state : Nat)
    (set_by_email : String) (gate_id : Option Nat)
    (g : Gate) (gid' gt' : Option Nat)
    (hres : resolve_gate ds feature_id gate_type gate_id =
      some (some g, gid', gt'))
    (hvalid : Vote.is_valid_state new_state = true)
    (hnoexisting : get_votes_by ds feature_id gid' set_by_email = [])
    (hfresh : ∀ v ∈ ds.votes, v.vid ≠ new_id)
    (hfreshc : ∀ v ∈ concurrent, v.vid ≠ new_id)
    (hdouble : ∃ v ∈ ds.votes ++ concurrent,
      v.gate_id = some g.gid ∧ v.set_by = set_by_email ∧ v.set_on < now) :
    set_vote ds slo_record now new_id concurrent feature_id gate_type
        new_state set_by_email gate_id =
      ({ds with votes := ds.votes ++ concurrent}, .returned none) := by
  obtain ⟨v, hvmem, hvg, hvb, hvt⟩ := hdouble
  simp only [set_vote, hres]
  rw [if_neg (by simp [hvalid])]
  simp only [hnoexisting]
  have hvmem2 : v ∈ (ds.votes ++
      [{ vid := new_id, feature_id := feature_id, gate_id := gid',
         gate_type := gt', state := new_state, set_on := now,
         set_by := set_by_email } ]) ++ concurrent := by
    rcases List.mem_append.mp hvmem with h | h
    · exact List.mem_append_left _ (List.mem_append_left _ h)
    · exact List.mem_append_right _ h
  have hvdouble : v ∈ (get_votes_of_gate
      ⟨ds.gates, (ds.votes ++
        [{ vid := new_id, feature_id := feature_id, gate_id := gid',
           gate_type := gt', state := new_state, set_on := now,
           set_by := set_by_email } ]) ++ concurrent⟩ g.gid).filter
      (fun w => w.set_by == set_by_email && w.set_on < now) := by
    refine List.mem_filter.mpr ⟨?_, by simp [hvb, hvt]⟩
    exact List.mem_filter.mpr ⟨hvmem2, by simp [hvg]⟩
  rw [if_pos ⟨by simp, List.ne_nil_of_mem hvdouble⟩]
  have hfnv : (([{ vid := new_id, feature_id := feature_id, gate_id := gid',
                   gate_type := gt', state := new_state, set_on := now,
                   set_by := set_by_email } ] : List Vote).filter
        (fun w => w.vid != new_id)) = [] := by simp
  have hfds : ds.votes.filter (fun w => w.vid != new_id) = ds.votes :=
    List.filter_eq_self.mpr (fun w hw => by simp [hfresh w hw])
  have hfc : concurrent.filter (fun w => w.vid != new_id) = concurrent :=
    List.filter_eq_self.mpr (fun w hw => by simp [hfreshc w hw])
  simp only [List.filter_append, hfnv, hfds, hfc, List.append_nil]

theorem c2_lost_race_self_eviction_witness :
    set_vote
      ⟨[{ gid := 11, feature_id := 1, gate_type := core_enums.GATE_API_SHIP,
          state := Gate.PREPARING, assignee_emails := [] }], []⟩
      sloNop 5 1
      [{ vid := 7, feature_id := 1, gate_id := some 11, gate_type := some 4,
         state := Vote.DENIED, set_on := 4, set_by := "a@b.c" }]
      1 (some core_enums.GATE_API_SHIP) Vote.APPROVED "a@b.c" none =
    (⟨[{ gid := 11, feature_id := 1, gate_type := core_enums.GATE_API_SHIP,
         state := Gate.PREPARING, assignee_emails := [] }],
      [{ vid := 7, feature_id := 1, gate_id := some 11, gate_type := some 4,
         state := Vote.DENIED, set_on := 4, set_by := "a@b.c" }]⟩,
     .returned none) :=
  c2_lost_race_self_eviction _ sloNop 5 1 _ 1 _ _ "a@b.c" none
    { gid := 11, feature_id := 1, gate_type := core_enums.GATE_API_SHIP,
      state := Gate.PREPARING, assignee_emails := [] } (some 11) (some 4)
    (by decide) (by decide) (by decide) (by decide) (by decide)
    ⟨{ vid := 7, feature_id := 1, gate_id := some 11, gate_type := some 4,
       state := Vote.DENIED, set_on := 4, set_by := "a@b.c" },
     by decide, by decide, by decide, by decide⟩

/-- C3 counterexample: the claim says a `set_vote` call targeting a gate
that does not exist records no vote row, whichever way the gate was
identified; but with an explicit `gate_id` that matches nothing the code
never aborts — on an empty store, `set_vote(..., gate_id=99)` persists one
vote row (while still returning `None`). -/
theorem c3_counterexample :
    (set_vote ⟨[], []⟩ sloNop 5 1 [] 1 none Vote.APPROVED "a@b.c"
      (some 99)).1.votes.length = 1 ∧
    (set_vote ⟨[], []⟩ sloNop 5 1 [] 1 none Vote.APPROVED "a@b.c"
      (some 99)).2 = .returned none := by decide

/-- C3 (amended): when `set_vote` resolves the gate by feature id plus gate
type and no such gate exists, the operation aborts with nothing persisted
and returns `None`; when an explicit `gate_id` matches no gate the call
does not abort: with a valid state and no prior vote by this voter it still
persists the new vote row (and the concurrent rows become visible), touches
no gate row, and returns `None`. -/
theorem c3_missing_gate_paths (ds : Datastore)
    (slo_record : Gate → List Vote → Nat → Gate × Bool)
    (now new_id : Nat) (concurrent : List Vote)
    (feature_id : Nat) (new_state : Nat) (set_by_email : String) :
    (∀ gt : Nat, get_gate_by_type ds feature_id gt = none →
      set_vote ds slo_record now new_id concurrent feature_id (some gt)
        new_state set_by_email none = (ds, .returned none)) ∧
    (∀ (gid : Nat) (gate_type : Option Nat),
      gate_get_by_id ds (some gid) = none →
      Vote.is_valid_state new_state = true →
      get_votes_by ds feature_id (some gid) set_by_email = [] →
      set_vote ds slo_record now new_id concurrent feature_id gate_type
          new_state set_by_email (some gid) =
        (⟨ds.gates,
          (ds.votes ++
            [{ vid := new_id, feature_id := feature_id, gate_id := some gid,
               gate_type := gate_type, state := new_state, set_on := now,
               set_by := set_by_email } ]) ++ concurrent⟩,
         .returned none)) := by
  constructor
  · intro gt hmiss
    simp only [set_vote, resolve_gate, hmiss]
  · intro gid gate_type hmiss hvalid hnoexisting
    simp only [set_vote, resolve_gate, hmiss]
    rw [if_neg (by simp [hvalid])]
    simp only [hnoexisting]

theorem c3_missing_gate_paths_witness :
    set_vote ⟨[], []⟩ sloNop 5 1 [] 1 (some 4) Vote.APPROVED "a@b.c" none =
      (⟨[], []⟩, .returned none) ∧
    set_vote ⟨[], []⟩ sloNop 5 1 [] 1 none Vote.APPROVED "a@b.c" (some 99) =
      (⟨[], [{ vid := 1, feature_id := 1, gate_id := some 99,
               gate_type := none, state := Vote.APPROVED, set_on := 5,
               set_by := "a@b.c" } ]⟩, .returned none) := by
  constructor
  · exact (c3_missing_gate_paths ⟨[], []⟩ sloNop 5 1 [] 1 Vote.APPROVED
      "a@b.c").1 4 (by decide)
  · have h := (c3_missing_gate_paths ⟨[], []⟩ sloNop 5 1 [] 1 Vote.APPROVED
      "a@b.c").2 99 none (by decide) (by decide) (by decide)
    simpa using h

/-- C4 counterexample: the claim says every `set_vote` call with an invalid
`new_state` raises `ValueError`; but when the feature+gate-type lookup finds
no gate, the call returns `None` before the validity check ever runs — no
exception, even though `new_state = 99` is not a defined vote state. -/
theorem c4_counterexample :
    Vote.is_valid_state 99 = false ∧
    set_vote ⟨[], []⟩ sloNop 5 1 [] 1 (some 4) 99 "a@b.c" none =
      (⟨[], []⟩, .returned none) := by decide

/-- C4 (amended): whenever `set_vote` reaches the validity check — that is,
except when resolution by feature id plus gate type finds no gate, in which
case it returns `None` first — an invalid `new_state` makes the call raise
`ValueError` synchronously with nothing persisted: the store is returned
unchanged. -/
theorem c4_invalid_state_raises (ds : Datastore)
    (slo_record : Gate → List Vote → Nat → Gate × Bool)
    (now new_id : Nat) (concurrent : List Vote)
    (feature_id : Nat) (gate_type : Option Nat) (new_state : Nat)
    (set_by_email : String) (gate_id : Option Nat)
    (r : Option Gate × Option Nat × Option Nat)
    (hres : resolve_gate ds feature_id gate_type gate_id = some r)
    (hinv : Vote.is_valid_state new_state = false) :
    set_vote ds slo_record now new_id concurrent feature_id gate_type
      new_state set_by_email gate_id = (ds, .raised) := by
  obtain ⟨gate, gid', gt'⟩ := r
  simp only [set_vote, hres]
  rw [if_pos (by simp [hinv])]

theorem c4_invalid_state_raises_witness :
    set_vote
      ⟨[{ gid := 11, feature_id := 1, gate_type := core_enums.GATE_API_SHIP,
          state := Gate.PREPARING, assignee_emails := [] }], []⟩
      sloNop 5 1 [] 1 (some core_enums.GATE_API_SHIP) 99 "a@b.c" none =
    (⟨[{ gid := 11, feature_id := 1, gate_type := core_enums.GATE_API_SHIP,
         state := Gate.PREPARING, assignee_emails := [] }], []⟩, .raised) :=
  c4_invalid_state_raises _ sloNop 5 1 [] 1 _ 99 "a@b.c" none
    (some { gid := 11, feature_id := 1,
            gate_type := core_enums.GATE_API_SHIP,
            state := Gate.PREPARING, assignee_emails := [] },
     some 11, some core_enums.GATE_API_SHIP)
    (by decide) (by decide)

/-! ### Reviewer auto-assignment `auto_assign_reviewer`

The HTTP fetcher and the JSON decoder are external collaborators, passed as
functions.  `json_loads r = none` models `json.loads` raising `ValueError`
on malformed content.  Python exceptions that escape the function are
modelled as the `.error` case of `Except`, carrying the exception name. -/

/-- An HTTP response as seen by `requests.get`. -/
structure HttpResponse where
  status_code : Nat
  content : String
deriving DecidableEq, Repr

/-- A decoded JSON object, as far as `auto_assign_reviewer` inspects it:
whether an `emails` key is present and, if so, its list value. -/
structure JsonObject where
  emails : Option (List String)
deriving DecidableEq, Repr

/-- Modelled from the spec: a `GateDef` row (`review_models.py`, not in the
sources) carries the dynamically stored approver list and the optional
on-call `rotation_url` for its gate type; an empty string is falsy in
`if not gate_def.rotation_url`. -/
structure GateDef where
  gate_type : Nat
  approvers : List String
  rotation_url : String
deriving DecidableEq, Repr

/-- The scan over the feature's other gates: reuse the assignees of the
first other gate with the same team and rule that has any.  A gate type
missing from the registry raises `KeyError` (`APPROVAL_FIELDS_BY_ID[...]`
indexing). -/
def find_reuse_gate (gate : Gate) (afd : GateInfo) :
    List Gate → Except String (Option Gate)
  | [] => .ok none
  | other_gate :: rest =>
    match APPROVAL_FIELDS_BY_ID other_gate.gate_type with
    | none => .error "KeyError"
    | some other_afd =>
      if other_gate.gid ≠ gate.gid ∧ other_afd.team_name = afd.team_name ∧
          other_afd.rule = afd.rule ∧ other_gate.assignee_emails ≠ [] then
        .ok (some other_gate)
      else find_reuse_gate gate afd rest

/-- `gate.put()` for an entity with key `gate.gid`: replace the row with
that key (upsert semantics: append if absent). -/
def put_gate (ds : Datastore) (gate : Gate) : Datastore :=
  if ds.gates.any (fun g => g.gid == gate.gid) then
    {ds with gates := ds.gates.map (fun g => if g.gid == gate.gid then gate else g)}
  else {ds with gates := ds.gates ++ [gate]}

/-- `auto_assign_reviewer(gate)`.  `get_gate_def` stands for
`GateDef.get_gate_def`, `requests_get` for the HTTP fetch of the rotation
URL, and `json_loads` for JSON decoding (`none` = `ValueError` raised, which
the code catches and merely logs).  After a caught decode failure the
variable `response_json` was never assigned, so the following
`if 'emails' in response_json:` raises `NameError` — the `.error` result. -/
def auto_assign_reviewer (ds : Datastore) (gate : Gate)
    (get_gate_def : Nat → GateDef)
    (requests_get : String → HttpResponse)
    (json_loads : String → Option JsonObject) : Except String Datastore :=
  match APPROVAL_FIELDS_BY_ID gate.gate_type with
  | none => .error "KeyError"
  | some afd =>
    let all_gates := ds.gates.filter (fun g => g.feature_id == gate.feature_id)
    match find_reuse_gate gate afd all_gates with
    | .error e => .error e
    | .ok (some other_gate) =>
      .ok (put_gate ds {gate with assignee_emails := other_gate.assignee_emails})
    | .ok none =>
      if ¬ (afd.approvers = .str IN_NDB) then .ok ds
      else
        let gate_def := get_gate_def gate.gate_type
        if gate_def.rotation_url = "" then .ok ds
        else
          let response := requests_get gate_def.rotation_url
          if response.status_code ≠ 200 then .ok ds
          else
            match json_loads response.content with
            | some response_json =>
              match response_json.emails with
              | some ems => .ok (put_gate ds {gate with assignee_emails := ems})
              | none => .ok ds
            | none => .error "NameError"

/-- C6: evaluating `auto_assign_reviewer` at a gate whose rotation endpoint
answers 200 with malformed JSON.  The claim (and the spec) say the parse
failure is logged and the assignment no-ops without raising; the code
catches the `ValueError` from `json.loads` but then dereferences the
never-assigned `response_json`, so a `NameError` escapes to the caller. -/
theorem c6_malformed_json_raises_name_error :
    auto_assign_reviewer
      ⟨[{ gid := 21, feature_id := 7,
          gate_type := core_enums.GATE_PRIVACY_ORIGIN_TRIAL,
          state := Gate.PREPARING, assignee_emails := [] }], []⟩
      { gid := 21, feature_id := 7,
        gate_type := core_enums.GATE_PRIVACY_ORIGIN_TRIAL,
        state := Gate.PREPARING, assignee_emails := [] }
      (fun gt => { gate_type := gt, approvers := [],
                   rotation_url := "https://rotation.example/current" })
      (fun _ => { status_code := 200, content := "not json" })
      (fun _ => none) =
    .error "NameError" := by rfl

/-! ### Approver resolution `get_approvers` -/

/-- The redis cache is an association list from cache key to the stored
approver list; `cache_get` is `rediscache.get` (`none` = miss). -/
def cache_get (cache : List (String × List String)) (key : String) :
    Option (List String) :=
  (cache.find? (fun p => p.1 == key)).map (fun p => p.2)

/-- `rediscache.set(key, value, time=CACHE_EXPIRATION)`: replace any entry
under the key. -/
def cache_set (cache : List (String × List String)) (key : String)
    (value : List String) : List (String × List String) :=
  (key, value) :: cache.filter (fun p => p.1 != key)

/-- The cache key `'%s|%s' % (APPROVERS_CACHE_KEY, gate_type)`. -/
def approvers_cache_key (gate_type : Nat) : String :=
  APPROVERS_CACHE_KEY ++ "|" ++ toString gate_type

/-- Result of a `get_approvers` call: the returned list, the cache as left
behind, and whether the call went past the cache to the approver source
(`resolved = true` exactly when the Python code executes the lines after
the `if cached_approvers: return` guard). -/
structure GetApproversResult where
  owners : List String
  cache : List (String × List String)
  resolved : Bool
deriving DecidableEq, Repr

/-- `get_approvers(gate_type)`.  `gate_def_approvers` stands for
`GateDef.get_gate_def(gate_type).approvers` and `fetch_owners_fn` for
`fetch_owners(url)` — both external to this function.  The cached value is
returned only if it is truthy (`if cached_approvers:`), so a cached empty
list falls through to re-resolution. -/
def get_approvers (cache : List (String × List String))
    (gate_def_approvers : Nat → List String)
    (fetch_owners_fn : String → List String) (gate_type : Nat) :
    GetApproversResult :=
  match APPROVAL_FIELDS_BY_ID gate_type with
  | none => { owners := [], cache := cache, resolved := false }
  | some afd =>
    let cache_key := approvers_cache_key gate_type
    match cache_get cache cache_key with
    | some (x :: xs) => { owners := x :: xs, cache := cache, resolved := false }
    | _ =>
      let owners :=
        match afd.approvers with
        | .str s =>
          if s = IN_NDB then gate_def_approvers gate_type
          else fetch_owners_fn s
        | .list l => l
      { owners := owners, cache := cache_set cache cache_key owners,
        resolved := true }

/-- C10: in `get_approvers`, only a non-empty approver list is effectively
memoized.  A cached empty list is treated as a miss (truthiness test on the
cached value) and the call re-resolves; a cached non-empty list is returned
without resolving; and after a call whose resolution produced the empty
list, the next call re-resolves again despite the freshly cached value. -/
theorem c10_empty_list_never_memoized
    (cache : List (String × List String))
    (gate_def_approvers : Nat → List String)
    (fetch_owners_fn : String → List String) (gate_type : Nat)
    (afd : GateInfo) (hafd : APPROVAL_FIELDS_BY_ID gate_type = some afd) :
    (cache_get cache (approvers_cache_key gate_type) = some [] →
      (get_approvers cache gate_def_approvers fetch_owners_fn
        gate_type).resolved = true) ∧
    (∀ x xs, cache_get cache (approvers_cache_key gate_type) = some (x :: xs) →
      get_approvers cache gate_def_approvers fetch_owners_fn gate_type =
        { owners := x :: xs, cache := cache, resolved := false }) ∧
    ((get_approvers cache gate_def_approvers fetch_owners_fn
        gate_type).owners = [] →
      (get_approvers
        (get_approvers cache gate_def_approvers fetch_owners_fn
          gate_type).cache
        gate_def_approvers fetch_owners_fn gate_type).resolved = true) := by
  refine ⟨?_, ?_, ?_⟩
  · intro hc
    simp only [get_approvers, hafd, hc]
  · intro x xs hc
    simp only [get_approvers, hafd, hc]
  · intro howners
    simp only [get_approvers, hafd] at howners ⊢
    rcases hcg : cache_get cache (approvers_cache_key gate_type) with - | l
    · simp only [hcg] at howners ⊢
      have hkey : cache_get
          (cache_set cache (approvers_cache_key gate_type) [])
          (approvers_cache_key gate_type) = some [] := by
        simp [cache_get, cache_set]
      simp only [howners] at hkey ⊢
      rw [hkey]
    · rcases l with - | ⟨x, xs⟩
      · simp only [hcg] at howners ⊢
        have hkey : cache_get
            (cache_set cache (approvers_cache_key gate_type) [])
            (approvers_cache_key gate_type) = some [] := by
          simp [cache_get, cache_set]
        simp only [howners] at hkey ⊢
        rw [hkey]
      · simp only [hcg] at howners ⊢
        exact absurd howners (List.cons_ne_nil x xs)

theorem c10_empty_list_never_memoized_witness :
    (get_approvers [(approvers_cache_key core_enums.GATE_PRIVACY_ORIGIN_TRIAL, [])]
      (fun _ => []) (fun _ => [])
      core_enums.GATE_PRIVACY_ORIGIN_TRIAL).resolved = true :=
  (c10_empty_list_never_memoized
    [(approvers_cache_key core_enums.GATE_PRIVACY_ORIGIN_TRIAL, [])]
    (fun _ => []) (fun _ => []) core_enums.GATE_PRIVACY_ORIGIN_TRIAL
    PrivacyOriginTrialApproval (by decide)).1 (by decide)

end ApprovalDefs
